import Mathlib

/-!
Shallow embedding of the astreus EVM plugin core (the `EVMClient` class):
the multi-network connection pool, the signing-identity (wallet) pool, and
the transaction-building and fee-estimation logic. JavaScript `Map` objects
are modelled as association lists with insertion-order semantics; library
calls that talk to the network or to the ethers cryptography layer
(provider construction, key parsing, HD derivation, unit conversion, node
queries) are parameters of the definitions, made fallible with `Option` or
`Except` where the library call can throw.
-/

set_option autoImplicit false

/-- Lookup in a JavaScript `Map` or plain object: first entry with the key. -/
def jsGet {α : Type} : List (String × α) → String → Option α
  | [], _ => none
  | (k2, v) :: rest, k => if k2 = k then some v else jsGet rest k

/-- Insertion into a JavaScript `Map` or plain object: an existing key is
overwritten in place, a new key is appended, preserving insertion order. -/
def jsSet {α : Type} : List (String × α) → String → α → List (String × α)
  | [], k, v => [(k, v)]
  | (k2, v2) :: rest, k, v =>
    if k2 = k then (k, v) :: rest else (k2, v2) :: jsSet rest k v

/-- Membership test, `Map.has`. -/
def jsHas {α : Type} (m : List (String × α)) (k : String) : Bool :=
  (jsGet m k).isSome

/-- JavaScript truthiness of an optional string: `undefined` and the empty
string are falsy. Models guards such as `request.value ? ... : ...`. -/
def jsStr : Option String → Option String
  | some s => if s = "" then none else some s
  | none => none

/-- Models the idiom `v || d` for an optional string `v`. -/
def jsOrString (v : Option String) (d : String) : String :=
  (jsStr v).getD d

/-- JavaScript truthiness of an optional bigint: `undefined` and `0n` are
falsy. Models guards such as `feeData.maxFeePerGas && ...`. -/
def jsBig : Option Nat → Option Nat
  | some 0 => none
  | v => v

/-- Native currency descriptor from `NetworkConfig.nativeCurrency`. -/
structure NativeCurrency where
  name : String
  symbol : String
  decimals : Nat
deriving DecidableEq

/-- Network descriptor, `NetworkConfig` in `types.ts`. -/
structure NetworkConfig where
  name : String
  chainId : Nat
  rpcUrl : String
  nativeCurrency : Option NativeCurrency
  blockExplorer : Option String
deriving DecidableEq

/-- Client configuration, `EVMConfig` in `types.ts` (the gas-default fields
are never read by the client and are omitted). -/
structure EVMConfig where
  networks : List (String × NetworkConfig)
  defaultNetwork : Option String
  privateKeys : Option (List String)
  mnemonic : Option String
  hdPath : Option String
  accountIndex : Option Nat
deriving DecidableEq

/-- A live RPC connection, `ethers.JsonRpcProvider`, carrying the arguments
of its construction. -/
structure Provider where
  rpcUrl : String
  name : String
  chainId : Nat
deriving DecidableEq

/-- Address and secret of a signing key, as produced by the ethers wallet
constructors (`new ethers.Wallet(key)`, HD derivation). The address is the
checksummed hex string ethers renders. -/
structure KeyPair where
  address : String
  privateKey : String
deriving DecidableEq

/-- A signing identity bound to a connection, `ethers.Wallet`. -/
structure Wallet where
  address : String
  privateKey : String
  provider : Provider
deriving DecidableEq

/-- Models `wallet.connect(provider)`: same key material, new connection. -/
def Wallet.connectTo (w : Wallet) (p : Provider) : Wallet :=
  { w with provider := p }

/-- The mutable state of `EVMClient`. -/
structure EVMClient where
  providers : List (String × Provider)
  wallets : List (String × Wallet)
  config : EVMConfig
  currentNetwork : String
deriving DecidableEq

/-- The built-in network table `COMMON_NETWORKS` from `types.ts`. -/
def COMMON_NETWORKS : List (String × NetworkConfig) :=
  [ ("mainnet",
     { name := "Ethereum Mainnet", chainId := 1,
       rpcUrl := "https://eth.llamarpc.com",
       nativeCurrency := some { name := "Ether", symbol := "ETH", decimals := 18 },
       blockExplorer := some "https://etherscan.io" }),
    ("sepolia",
     { name := "Sepolia Testnet", chainId := 11155111,
       rpcUrl := "https://sepolia.infura.io/v3/",
       nativeCurrency := some { name := "Sepolia Ether", symbol := "ETH", decimals := 18 },
       blockExplorer := some "https://sepolia.etherscan.io" }),
    ("polygon",
     { name := "Polygon Mainnet", chainId := 137,
       rpcUrl := "https://polygon-rpc.com",
       nativeCurrency := some { name := "MATIC", symbol := "MATIC", decimals := 18 },
       blockExplorer := some "https://polygonscan.com" }),
    ("arbitrum",
     { name := "Arbitrum One", chainId := 42161,
       rpcUrl := "https://arb1.arbitrum.io/rpc",
       nativeCurrency := some { name := "Ether", symbol := "ETH", decimals := 18 },
       blockExplorer := some "https://arbiscan.io" }),
    ("optimism",
     { name := "Optimism", chainId := 10,
       rpcUrl := "https://mainnet.optimism.io",
       nativeCurrency := some { name := "Ether", symbol := "ETH", decimals := 18 },
       blockExplorer := some "https://optimistic.etherscan.io" }),
    ("base",
     { name := "Base", chainId := 8453,
       rpcUrl := "https://mainnet.base.org",
       nativeCurrency := some { name := "Ether", symbol := "ETH", decimals := 18 },
       blockExplorer := some "https://basescan.org" }),
    ("avalanche",
     { name := "Avalanche C-Chain", chainId := 43114,
       rpcUrl := "https://api.avax.network/ext/bc/C/rpc",
       nativeCurrency := some { name := "Avalanche", symbol := "AVAX", decimals := 18 },
       blockExplorer := some "https://snowtrace.io" }),
    ("bsc",
     { name := "BNB Smart Chain", chainId := 56,
       rpcUrl := "https://bsc-dataseed.binance.org",
       nativeCurrency := some { name := "BNB", symbol := "BNB", decimals := 18 },
       blockExplorer := some "https://bscscan.com" }) ]

/-- Lines 45 to 52 of the client: start from `config.networks || {}` and add
each common network whose key is not already configured. -/
def mergedNetworks (cfg : EVMConfig) : List (String × NetworkConfig) :=
  COMMON_NETWORKS.foldl
    (fun ns kn => if jsHas ns kn.1 then ns else ns ++ [(kn.1, kn.2)])
    cfg.networks

/-- Lines 54 to 69: one provider per merged network; a throwing provider
construction (`mk` returning `none`, a malformed URL for example) is caught
and logged, leaving that network absent from the pool. -/
def initializeProviders (mk : NetworkConfig → Option Provider)
    (cfg : EVMConfig) : List (String × Provider) :=
  (mergedNetworks cfg).foldl
    (fun ps kn =>
      match mk kn.2 with
      | none => ps
      | some p => jsSet ps kn.1 p)
    []

/-- Lines 117 to 126, `getProvider`: the connection for the given network
name, defaulting to the current-network cursor; throws when absent. -/
def getProvider (c : EVMClient) (network : Option String) : Except String Provider :=
  let networkKey := network.getD c.currentNetwork
  match jsGet c.providers networkKey with
  | none => Except.error ("Provider not found for network: " ++ networkKey)
  | some p => Except.ok p

/-- Lines 78 to 89: wallets from raw private keys. Each key is parsed inside
its own try/catch, so a malformed key (`parseKey` returning an error) is
skipped and the remaining keys are still processed. -/
def initRawWallets (parseKey : String → Except String KeyPair) (p : Provider)
    (keys : List String) (ws : List (String × Wallet)) : List (String × Wallet) :=
  keys.foldl
    (fun ws k =>
      match parseKey k with
      | Except.error _ => ws
      | Except.ok kp =>
          jsSet ws kp.address { address := kp.address, privateKey := kp.privateKey, provider := p })
    ws

/-- Lines 98 to 107, the body of the HD loop: `fuel` iterations remain and
`i` is the next account index; the path is `hp ++ "/" ++ toString i`. The
single try/catch wraps the WHOLE loop, so the first failing derivation
abandons the loop, keeping the wallets already inserted. -/
def hdLoop (dh : String → String → Except String KeyPair) (m hp : String)
    (p : Provider) : Nat → Nat → List (String × Wallet) → List (String × Wallet)
  | 0, _, ws => ws
  | fuel + 1, i, ws =>
    match dh m (hp ++ "/" ++ toString i) with
    | Except.error _ => ws
    | Except.ok kp =>
        hdLoop dh m hp p fuel (i + 1)
          (jsSet ws kp.address { address := kp.address, privateKey := kp.privateKey, provider := p })

/-- Lines 78 to 89 as a whole: the wallet pool contributed by the raw-key
branch, guarded by `config.privateKeys && config.privateKeys.length > 0`. -/
def rawWalletsPart (parseKey : String → Except String KeyPair) (p : Provider)
    (cfg : EVMConfig) : List (String × Wallet) :=
  match cfg.privateKeys with
  | some keys => if keys.length > 0 then initRawWallets parseKey p keys [] else []
  | none => []

/-- Lines 75 to 112, `initializeWallets`: resolves the current provider
first (line 76) - this throw is NOT caught and aborts construction - then
initializes raw-key wallets and the fixed batch of 10 HD wallets. -/
def initializeWallets (parseKey : String → Except String KeyPair)
    (dh : String → String → Except String KeyPair)
    (providers : List (String × Provider)) (currentNetwork : String)
    (cfg : EVMConfig) : Except String (List (String × Wallet)) :=
  match jsGet providers currentNetwork with
  | none => Except.error ("Provider not found for network: " ++ currentNetwork)
  | some p =>
    let ws : List (String × Wallet) := rawWalletsPart parseKey p cfg
    match jsStr cfg.mnemonic with
    | some m =>
        let hp := jsOrString cfg.hdPath "m/44\x27/60\x27/0\x27/0"
        let startIndex := cfg.accountIndex.getD 0
        Except.ok (hdLoop dh m hp p 10 startIndex ws)
    | none => Except.ok ws

/-- Lines 32 to 39, the constructor: set the cursor from
`config.defaultNetwork || "mainnet"`, build the provider pool, then the
wallet pool; a throw escaping `initializeWallets` aborts construction. -/
def constructClient (mk : NetworkConfig → Option Provider)
    (parseKey : String → Except String KeyPair)
    (dh : String → String → Except String KeyPair)
    (cfg : EVMConfig) : Except String EVMClient :=
  let cur := jsOrString cfg.defaultNetwork "mainnet"
  let providers := initializeProviders mk cfg
  match initializeWallets parseKey dh providers cur cfg with
  | Except.error e => Except.error e
  | Except.ok ws =>
      Except.ok { providers := providers, wallets := ws, config := cfg, currentNetwork := cur }

/-- Lines 131 to 144, `switchNetwork`. A thrown error leaves the object as
it was, so the result is the (possibly unchanged) state paired with the
error message, mirroring mutation-then-throw semantics. -/
def switchNetwork (c : EVMClient) (network : String) : EVMClient × Option String :=
  if jsHas c.providers network = false then
    (c, some ("Network not configured: " ++ network))
  else
    let c2 := { c with currentNetwork := network }
    match getProvider c2 none with
    | Except.error e => (c2, some e)
    | Except.ok p =>
        ({ c2 with wallets := c2.wallets.map (fun kv => (kv.1, kv.2.connectTo p)) }, none)

/-- The transaction request shape, `TransactionRequest` in `types.ts`. The
`from` field is rendered `fromAddr` because `from` is reserved in Lean. -/
structure TransactionRequest where
  toAddr : String
  fromAddr : Option String
  value : Option String
  data : Option String
  gasLimit : Option String
  gasPrice : Option String
  maxFeePerGas : Option String
  maxPriorityFeePerGas : Option String
  nonce : Option Nat
  chainId : Option Nat
deriving DecidableEq

/-- The `ethers.TransactionRequest` object handed to
`wallet.sendTransaction`; absent fields are `none`. -/
structure EthersTx where
  toAddr : String
  value : Nat
  data : String
  nonce : Option Nat
  chainId : Option Nat
  gasLimit : Option Nat
  maxFeePerGas : Option Nat
  maxPriorityFeePerGas : Option Nat
  gasPrice : Option Nat
deriving DecidableEq

/-- Lines 189 to 208 of `sendTransaction`: build the transaction object.
`parseEther` models `ethers.parseEther` (decimal ether string to wei) and
`toBigInt` models the `BigInt` conversion of a decimal string. -/
def buildTx (parseEther : String → Nat) (toBigInt : String → Nat)
    (request : TransactionRequest) : EthersTx :=
  let tx : EthersTx :=
    { toAddr := request.toAddr
      value := match jsStr request.value with
               | some v => parseEther v
               | none => 0
      data := jsOrString request.data "0x"
      nonce := request.nonce
      chainId := request.chainId
      gasLimit := none
      maxFeePerGas := none
      maxPriorityFeePerGas := none
      gasPrice := none }
  let tx :=
    match jsStr request.gasLimit with
    | some g => { tx with gasLimit := some (toBigInt g) }
    | none => tx
  match jsStr request.maxFeePerGas, jsStr request.maxPriorityFeePerGas with
  | some mf, some mp =>
      { tx with maxFeePerGas := some (toBigInt mf),
                maxPriorityFeePerGas := some (toBigInt mp) }
  | _, _ =>
    match jsStr request.gasPrice with
    | some gp => { tx with gasPrice := some (toBigInt gp) }
    | _ => tx

/-- Lines 183 and 470 to 472: pick the wallet for `request.from` by exact
map lookup, or the first wallet in insertion order when `from` is falsy. -/
def resolveWallet (wallets : List (String × Wallet)) (fromAddr : Option String) :
    Option Wallet :=
  match jsStr fromAddr with
  | some f => jsGet wallets f
  | none => (wallets.map (fun kv => kv.2)).head?

/-- Lines 179 to 213 of `sendTransaction` up to the submission call: the
network round trip, confirmation wait and response normalization that
follow are node interaction outside the embedding. The second component is
exactly the transaction object submitted through `wallet.sendTransaction`. -/
def sendTransactionPrepare (parseEther : String → Nat) (toBigInt : String → Nat)
    (c : EVMClient) (request : TransactionRequest) :
    Except String (Wallet × EthersTx) :=
  match getProvider c none with
  | Except.error e => Except.error e
  | Except.ok _ =>
    match resolveWallet c.wallets request.fromAddr with
    | none => Except.error "No wallet available for sending transaction"
    | some w => Except.ok (w, buildTx parseEther toBigInt request)

/-- The transaction object handed to `provider.estimateGas` (lines 244 to
249): note it carries `request.from` through unchecked. -/
structure EstTx where
  toAddr : String
  value : Nat
  data : String
  fromAddr : Option String
deriving DecidableEq

/-- The node fee quote, `provider.getFeeData()`. -/
structure FeeData where
  gasPrice : Option Nat
  maxFeePerGas : Option Nat
  maxPriorityFeePerGas : Option Nat
deriving DecidableEq

/-- The result record `GasEstimation` from `types.ts`. -/
structure GasEstimation where
  gasLimit : String
  gasPrice : Option String
  maxFeePerGas : Option String
  maxPriorityFeePerGas : Option String
  estimatedCost : String
deriving DecidableEq

/-- Lines 241 to 281, `estimateGas`. `nodeGas` models
`provider.estimateGas(tx)` and `feeData` the `provider.getFeeData()`
response; `formatEther` models `ethers.formatEther`. -/
def estimateGas (parseEther : String → Nat) (formatEther : Nat → String)
    (nodeGas : EstTx → Nat) (feeData : FeeData)
    (c : EVMClient) (request : TransactionRequest) : Except String GasEstimation :=
  match getProvider c none with
  | Except.error e => Except.error e
  | Except.ok _ =>
    let tx : EstTx :=
      { toAddr := request.toAddr
        value := match jsStr request.value with
                 | some v => parseEther v
                 | none => 0
        data := jsOrString request.data "0x"
        fromAddr := request.fromAddr }
    let gasLimit := nodeGas tx
    match jsBig feeData.maxFeePerGas, jsBig feeData.maxPriorityFeePerGas with
    | some mf, some mp =>
        Except.ok
          { gasLimit := toString gasLimit
            gasPrice := none
            maxFeePerGas := some (toString mf)
            maxPriorityFeePerGas := some (toString mp)
            estimatedCost := formatEther (gasLimit * mf) }
    | _, _ =>
      match jsBig feeData.gasPrice with
      | some gp =>
          Except.ok
            { gasLimit := toString gasLimit
              gasPrice := some (toString gp)
              maxFeePerGas := none
              maxPriorityFeePerGas := none
              estimatedCost := formatEther (gasLimit * gp) }
      | none =>
          Except.ok
            { gasLimit := toString gasLimit
              gasPrice := none
              maxFeePerGas := none
              maxPriorityFeePerGas := none
              estimatedCost := "0" }

section ContractFacade

variable {Val Receipt : Type}

/-- The result record `ContractCallResult` from `types.ts`. -/
structure ContractCallResult (Val : Type) where
  result : Option Val
  decoded : Option Val
  error : Option String

/-- Lines 436 to 445, the body of the try block of `callContract`:
provider lookup, contract construction and the dynamic method invocation
(`invoke`, a node interaction that may throw). -/
def callContractBody (c : EVMClient) (invoke : Provider → Except String Val) :
    Except String (ContractCallResult Val) :=
  match getProvider c none with
  | Except.error e => Except.error e
  | Except.ok p =>
    match invoke p with
    | Except.error e => Except.error e
    | Except.ok v => Except.ok { result := some v, decoded := some v, error := none }

/-- Lines 430 to 452, `callContract`: the try/catch converts EVERY thrown
error into a `{ result: null, error }` record, so the method returns a
plain record and never raises. -/
def callContract (c : EVMClient) (invoke : Provider → Except String Val) :
    ContractCallResult Val :=
  match callContractBody c invoke with
  | Except.ok r => r
  | Except.error e => { result := none, decoded := none, error := some e }

/-- What `await contract[method](...params, txOptions)` plus its receipt
yield for a state-changing call: a node interaction. -/
structure ContractTxOut (Receipt : Type) where
  hash : String
  fromAddr : String
  toAddr : String
  value : Nat
  data : String
  receipt : Receipt

/-- The result record `ContractTransactionResult` from `types.ts`. -/
structure ContractTransactionResult (Receipt : Type) where
  hash : String
  fromAddr : String
  toAddr : String
  value : String
  data : String
  receipt : Option Receipt
  error : Option String

/-- Lines 468 to 506, the body of the try block of
`sendContractTransaction`: wallet resolution (line 470), then the dynamic
state-changing invocation and confirmation wait (`invoke`). -/
def sendContractTransactionBody (c : EVMClient) (optionsFrom : Option String)
    (invoke : Wallet → Except String (ContractTxOut Receipt)) :
    Except String (ContractTransactionResult Receipt) :=
  match resolveWallet c.wallets optionsFrom with
  | none => Except.error "No wallet available for sending transaction"
  | some w =>
    match invoke w with
    | Except.error e => Except.error e
    | Except.ok t =>
        Except.ok
          { hash := t.hash, fromAddr := t.fromAddr, toAddr := t.toAddr,
            value := toString t.value, data := t.data,
            receipt := some t.receipt, error := none }

/-- Lines 457 to 517, `sendContractTransaction`: the try/catch converts
EVERY thrown error - including the missing-wallet throw - into an error
record, so the method returns a plain record and never raises. -/
def sendContractTransaction (c : EVMClient) (contractAddress : String)
    (optionsFrom : Option String)
    (invoke : Wallet → Except String (ContractTxOut Receipt)) :
    ContractTransactionResult Receipt :=
  match sendContractTransactionBody c optionsFrom invoke with
  | Except.ok r => r
  | Except.error e =>
      { hash := "", fromAddr := "", toAddr := contractAddress,
        value := "0", data := "0x", receipt := none, error := some e }

/-- The record returned by `deployContract` (the passed-through `abi`
field is elided as pure data). -/
structure DeployResult where
  address : String
  transactionHash : String
deriving DecidableEq

/-- Lines 522 to 562, `deployContract`: NO try/catch - wallet resolution
failure (line 536) and any deployment failure (`deploy`, a node
interaction) propagate to the caller as raised errors. -/
def deployContract (c : EVMClient) (optionsFrom : Option String)
    (deploy : Wallet → Except String DeployResult) :
    Except String DeployResult :=
  match resolveWallet c.wallets optionsFrom with
  | none => Except.error "No wallet available for deployment"
  | some w => deploy w

end ContractFacade

/-- The result record `ENSInfo` from `types.ts`. -/
structure ENSInfo where
  name : Option String
  address : Option String
  resolver : Option String
  avatar : Option String
deriving DecidableEq

/-- The resolver object returned by `provider.getResolver(name)`: its
address query and its avatar query, both node interactions that may
throw. -/
structure ENSResolver where
  getAddress : Except String String
  getAvatar : Except String (Option String)

/-- The node side of `resolveENS`: `provider.resolveName(name)` (null when
the name does not resolve) and `provider.getResolver?.(name)` (`Except.ok
none` covers both an absent method and a null resolver). -/
structure ENSOracle where
  resolveName : Except String (Option String)
  getResolver : Except String (Option ENSResolver)

/-- Lines 359 to 384, `resolveENS`: only the avatar query sits inside a
try/catch; errors of `resolveName`, `getResolver` and `getAddress`
propagate and fail the whole call. -/
def resolveENS (c : EVMClient) (name : String) (o : ENSOracle) :
    Except String ENSInfo :=
  match getProvider c none with
  | Except.error e => Except.error e
  | Except.ok _ =>
    match o.resolveName with
    | Except.error e => Except.error e
    | Except.ok addr =>
      match o.getResolver with
      | Except.error e => Except.error e
      | Except.ok none =>
          Except.ok { name := some name, address := addr, resolver := none, avatar := none }
      | Except.ok (some r) =>
        match r.getAddress with
        | Except.error e => Except.error e
        | Except.ok raddr =>
          match r.getAvatar with
          | Except.error _ =>
              Except.ok { name := some name, address := addr,
                          resolver := some raddr, avatar := none }
          | Except.ok none =>
              Except.ok { name := some name, address := addr,
                          resolver := some raddr, avatar := none }
          | Except.ok (some av) =>
              Except.ok { name := some name, address := addr,
                          resolver := some raddr, avatar := some av }

/-! Helper lemmas about the JavaScript map model. -/

theorem jsGet_jsSet_self {α : Type} : ∀ (m : List (String × α)) (k : String) (v : α),
    jsGet (jsSet m k v) k = some v
  | [], k, v => by simp [jsSet, jsGet]
  | (k1, v1) :: t, k, v => by
      by_cases hk : k1 = k
      · simp [jsSet, hk, jsGet]
      · simp only [jsSet, if_neg hk, jsGet]
        exact jsGet_jsSet_self t k v

theorem jsGet_jsSet_ne {α : Type} : ∀ (m : List (String × α)) (k k2 : String) (v : α),
    k2 ≠ k → jsGet (jsSet m k v) k2 = jsGet m k2
  | [], k, k2, v, h => by
      simp only [jsSet, jsGet]
      rw [if_neg fun hc => h hc.symm]
  | (k1, v1) :: t, k, k2, v, h => by
      by_cases hk : k1 = k
      · subst hk
        simp only [jsSet, if_pos rfl, jsGet]
        rw [if_neg fun hc => h hc.symm, if_neg fun hc => h hc.symm]
      · simp only [jsSet, if_neg hk, jsGet]
        by_cases hk2 : k1 = k2
        · rw [if_pos hk2, if_pos hk2]
        · rw [if_neg hk2, if_neg hk2]
          exact jsGet_jsSet_ne t k k2 v h

theorem jsGet_eq_none_iff {α : Type} : ∀ (m : List (String × α)) (k : String),
    jsGet m k = none ↔ k ∉ m.map Prod.fst
  | [], k => by simp [jsGet]
  | (k1, v1) :: t, k => by
      simp only [jsGet, List.map_cons, List.mem_cons]
      by_cases hk : k1 = k
      · simp [hk]
      · simp only [if_neg hk]
        rw [jsGet_eq_none_iff t k]
        constructor
        · exact fun hn hc => hc.elim (fun he => hk he.symm) hn
        · exact fun hn hc => hn (Or.inr hc)

theorem mem_keys_jsSet_self {α : Type} : ∀ (m : List (String × α)) (k : String) (v : α),
    k ∈ (jsSet m k v).map Prod.fst
  | [], k, v => by simp [jsSet]
  | (k1, v1) :: t, k, v => by
      by_cases hk : k1 = k
      · simp [jsSet, hk]
      · simp only [jsSet, if_neg hk, List.map_cons]
        exact List.mem_cons_of_mem _ (mem_keys_jsSet_self t k v)

theorem mem_keys_jsSet_of_mem {α : Type} : ∀ (m : List (String × α)) (a k : String) (v : α),
    a ∈ m.map Prod.fst → a ∈ (jsSet m k v).map Prod.fst
  | [], a, k, v, h => by simp at h
  | (k1, v1) :: t, a, k, v, h => by
      rw [List.map_cons, List.mem_cons] at h
      by_cases hk : k1 = k
      · simp only [jsSet, if_pos hk, List.map_cons, List.mem_cons]
        rcases h with h1 | h1
        · exact Or.inl (h1.trans hk)
        · exact Or.inr h1
      · simp only [jsSet, if_neg hk, List.map_cons, List.mem_cons]
        rcases h with h1 | h1
        · exact Or.inl h1
        · exact Or.inr (mem_keys_jsSet_of_mem t a k v h1)

/-! Claim C1: fee-field selection in `sendTransaction`. -/

/-- C1: for every transaction request, if both `maxFeePerGas` and
`maxPriorityFeePerGas` are present (truthy), `send` builds an EIP-1559
transaction whose fee-pair fields are set and in which a supplied legacy
`gasPrice` does not appear; else if `gasPrice` is present it builds a
legacy transaction with that `gasPrice`; else no fee field is set at
all. -/
theorem send_fee_field_selection (parseEther toBigInt : String → Nat)
    (request : TransactionRequest) :
    (∀ mf mp, jsStr request.maxFeePerGas = some mf →
      jsStr request.maxPriorityFeePerGas = some mp →
      (buildTx parseEther toBigInt request).maxFeePerGas = some (toBigInt mf) ∧
      (buildTx parseEther toBigInt request).maxPriorityFeePerGas = some (toBigInt mp) ∧
      (buildTx parseEther toBigInt request).gasPrice = none) ∧
    (∀ gp, (jsStr request.maxFeePerGas = none ∨ jsStr request.maxPriorityFeePerGas = none) →
      jsStr request.gasPrice = some gp →
      (buildTx parseEther toBigInt request).gasPrice = some (toBigInt gp) ∧
      (buildTx parseEther toBigInt request).maxFeePerGas = none ∧
      (buildTx parseEther toBigInt request).maxPriorityFeePerGas = none) ∧
    ((jsStr request.maxFeePerGas = none ∨ jsStr request.maxPriorityFeePerGas = none) →
      jsStr request.gasPrice = none →
      (buildTx parseEther toBigInt request).gasPrice = none ∧
      (buildTx parseEther toBigInt request).maxFeePerGas = none ∧
      (buildTx parseEther toBigInt request).maxPriorityFeePerGas = none) := by
  refine ⟨?_, ?_, ?_⟩
  · intro mf mp hmf hmp
    cases hgl : jsStr request.gasLimit <;>
      simp [buildTx, hmf, hmp, hgl]
  · intro gp hor hgp
    rcases hor with hor | hor <;>
      cases hmf : jsStr request.maxFeePerGas <;>
      cases hmp : jsStr request.maxPriorityFeePerGas <;>
      cases hgl : jsStr request.gasLimit <;>
      simp_all [buildTx]
  · intro hor hgp
    rcases hor with hor | hor <;>
      cases hmf : jsStr request.maxFeePerGas <;>
      cases hmp : jsStr request.maxPriorityFeePerGas <;>
      cases hgl : jsStr request.gasLimit <;>
      simp_all [buildTx]

/-- Witness for C1 at the concrete request of the spec test: `gasPrice="5"`
together with `maxFeePerGas="10"` and `maxPriorityFeePerGas="1"`. -/
theorem send_fee_field_selection_w :
    (buildTx (fun s => s.length) (fun s => s.length)
      { toAddr := "0xB", fromAddr := none, value := none, data := none,
        gasLimit := none, gasPrice := some "5", maxFeePerGas := some "10",
        maxPriorityFeePerGas := some "1", nonce := none, chainId := none }).maxFeePerGas
      = some 2 ∧
    (buildTx (fun s => s.length) (fun s => s.length)
      { toAddr := "0xB", fromAddr := none, value := none, data := none,
        gasLimit := none, gasPrice := some "5", maxFeePerGas := some "10",
        maxPriorityFeePerGas := some "1", nonce := none, chainId := none }).maxPriorityFeePerGas
      = some 1 ∧
    (buildTx (fun s => s.length) (fun s => s.length)
      { toAddr := "0xB", fromAddr := none, value := none, data := none,
        gasLimit := none, gasPrice := some "5", maxFeePerGas := some "10",
        maxPriorityFeePerGas := some "1", nonce := none, chainId := none }).gasPrice
      = none :=
  (send_fee_field_selection (fun s => s.length) (fun s => s.length)
    { toAddr := "0xB", fromAddr := none, value := none, data := none,
      gasLimit := none, gasPrice := some "5", maxFeePerGas := some "10",
      maxPriorityFeePerGas := some "1", nonce := none, chainId := none }).1
    "10" "1" (by decide) (by decide)

/-! Claim C2: `switchNetwork` failure and identity re-binding. -/

/-- C2: for every network name, if the name is absent from the connection
pool `switchNetwork` fails with the network-not-configured error and the
current-network cursor is unchanged; if it is present, the cursor is set to
the name and every held identity is re-bound to the connection for that
name, preserving its map key, its address and its private key. -/
theorem switchNetwork_cursor_and_rebinding (c : EVMClient) (n : String) :
    (jsGet c.providers n = none →
      switchNetwork c n = (c, some ("Network not configured: " ++ n))) ∧
    (∀ p, jsGet c.providers n = some p →
      switchNetwork c n =
        ({ c with currentNetwork := n,
                  wallets := c.wallets.map (fun kv =>
                    (kv.1, { address := kv.2.address, privateKey := kv.2.privateKey,
                             provider := p })) }, none)) := by
  constructor
  · intro h
    simp [switchNetwork, jsHas, h]
  · intro p h
    simp [switchNetwork, jsHas, h, getProvider, Wallet.connectTo]

/-- Witness for C2: a client with one polygon connection and one wallet;
switching to polygon rebinds the wallet, switching to an unknown name
fails and leaves the state untouched. -/
theorem switchNetwork_cursor_and_rebinding_w :
    switchNetwork
      { providers := [("polygon", { rpcUrl := "https://polygon-rpc.com",
                                    name := "Polygon Mainnet", chainId := 137 })],
        wallets := [("0xA", { address := "0xA", privateKey := "k1",
                              provider := { rpcUrl := "u0", name := "n0", chainId := 1 } })],
        config := { networks := [], defaultNetwork := none, privateKeys := none,
                    mnemonic := none, hdPath := none, accountIndex := none },
        currentNetwork := "mainnet" }
      "polygon"
    = ({ providers := [("polygon", { rpcUrl := "https://polygon-rpc.com",
                                     name := "Polygon Mainnet", chainId := 137 })],
         wallets := [("0xA", { address := "0xA", privateKey := "k1",
                               provider := { rpcUrl := "https://polygon-rpc.com",
                                             name := "Polygon Mainnet", chainId := 137 } })],
         config := { networks := [], defaultNetwork := none, privateKeys := none,
                     mnemonic := none, hdPath := none, accountIndex := none },
         currentNetwork := "polygon" }, none) := by
  have h := (switchNetwork_cursor_and_rebinding
    { providers := [("polygon", { rpcUrl := "https://polygon-rpc.com",
                                  name := "Polygon Mainnet", chainId := 137 })],
      wallets := [("0xA", { address := "0xA", privateKey := "k1",
                            provider := { rpcUrl := "u0", name := "n0", chainId := 1 } })],
      config := { networks := [], defaultNetwork := none, privateKeys := none,
                  mnemonic := none, hdPath := none, accountIndex := none },
      currentNetwork := "mainnet" }
    "polygon").2
    { rpcUrl := "https://polygon-rpc.com", name := "Polygon Mainnet", chainId := 137 }
    (by decide)
  simpa using h

/-! Claim C3: per-network failure tolerance during construction. -/

/-- The provider-pool fold of `initializeProviders`, characterized on any
prefix list with disjoint accumulator: lookup in the built pool is lookup
in the network table composed with the fallible construction. -/
theorem provFold_get (mk : NetworkConfig → Option Provider) :
    ∀ (l : List (String × NetworkConfig)) (acc : List (String × Provider)) (k : String),
    (l.map Prod.fst).Nodup →
    (∀ k2, k2 ∈ l.map Prod.fst → jsGet acc k2 = none) →
    jsGet (l.foldl (fun ps kn =>
        match mk kn.2 with
        | none => ps
        | some p => jsSet ps kn.1 p) acc) k
      = (match jsGet l k with
         | none => jsGet acc k
         | some n => mk n)
  | [], acc, k, _, _ => by simp [jsGet]
  | (k1, n1) :: rest, acc, k, hnd, hdisj => by
      rw [List.map_cons, List.nodup_cons] at hnd
      have hacc1 : jsGet acc k1 = none := hdisj k1 (by simp)
      cases hmk : mk n1 with
      | none =>
          have hdisj2 : ∀ k2, k2 ∈ rest.map Prod.fst → jsGet acc k2 = none :=
            fun k2 hk2 => hdisj k2 (by simp [hk2])
          have ih := provFold_get mk rest acc k hnd.2 hdisj2
          simp only [List.foldl_cons, hmk]
          rw [ih]
          by_cases hk : k1 = k
          · subst hk
            have hrest : jsGet rest k1 = none := (jsGet_eq_none_iff rest k1).2 hnd.1
            rw [hrest]
            simp [jsGet, hmk, hacc1]
          · simp only [jsGet, if_neg hk]
      | some p =>
          have hdisj2 : ∀ k2, k2 ∈ rest.map Prod.fst →
              jsGet (jsSet acc k1 p) k2 = none := by
            intro k2 hk2
            have hne : k2 ≠ k1 := fun hc => hnd.1 (hc ▸ hk2)
            rw [jsGet_jsSet_ne acc k1 k2 p hne]
            exact hdisj k2 (by simp [hk2])
          have ih := provFold_get mk rest (jsSet acc k1 p) k hnd.2 hdisj2
          simp only [List.foldl_cons, hmk]
          rw [ih]
          by_cases hk : k1 = k
          · subst hk
            have hrest : jsGet rest k1 = none := (jsGet_eq_none_iff rest k1).2 hnd.1
            rw [hrest]
            simp [jsGet, hmk, jsGet_jsSet_self acc k1 p]
          · simp only [jsGet, if_neg hk]
            cases hrest : jsGet rest k with
            | some n => rfl
            | none => exact jsGet_jsSet_ne acc k1 k p (fun hc => hk hc.symm)

/-- The merge of the common networks over the user table keeps the key list
duplicate-free when the user table is. -/
theorem mergedNetworks_keys_nodup (cfg : EVMConfig)
    (h : (cfg.networks.map Prod.fst).Nodup) :
    ((mergedNetworks cfg).map Prod.fst).Nodup := by
  have gen : ∀ (l : List (String × NetworkConfig)) (acc : List (String × NetworkConfig)),
      (acc.map Prod.fst).Nodup →
      ((l.foldl (fun ns kn => if jsHas ns kn.1 then ns else ns ++ [(kn.1, kn.2)]) acc).map
        Prod.fst).Nodup := by
    intro l
    induction l with
    | nil => intro acc hacc; simpa using hacc
    | cons hd t ih =>
        intro acc hacc
        simp only [List.foldl_cons]
        by_cases hh : jsHas acc hd.1 = true
        · rw [if_pos hh]; exact ih acc hacc
        · rw [if_neg hh]
          apply ih
          have hnone : jsGet acc hd.1 = none := by
            cases hg : jsGet acc hd.1 with
            | none => rfl
            | some v => exact absurd (by simp [jsHas, hg]) hh
          have hnotmem : hd.1 ∉ acc.map Prod.fst := (jsGet_eq_none_iff acc hd.1).1 hnone
          simp [List.nodup_append, hacc, hnotmem]
  exact gen COMMON_NETWORKS cfg.networks h

/-- The wallet initializer fails exactly when the current network has no
provider in the pool: the raw-key and HD branches never throw outward. -/
theorem initializeWallets_isOk (parseKey : String → Except String KeyPair)
    (dh : String → String → Except String KeyPair)
    (providers : List (String × Provider)) (cur : String) (cfg : EVMConfig) :
    (initializeWallets parseKey dh providers cur cfg).isOk = (jsGet providers cur).isSome := by
  unfold initializeWallets
  cases h : jsGet providers cur with
  | none => simp [Except.isOk, Except.toBool]
  | some p => cases hm : jsStr cfg.mnemonic <;> simp [Except.isOk, Except.toBool]

/-- An empty configuration: no user networks, no keys, no mnemonic. -/
def cfgEmpty : EVMConfig :=
  { networks := [], defaultNetwork := none, privateKeys := none,
    mnemonic := none, hdPath := none, accountIndex := none }

/-- A provider construction that fails exactly for the chain-id-1 network,
modelling a malformed mainnet RPC URL. -/
def mkFailMainnet : NetworkConfig → Option Provider :=
  fun nc => if nc.chainId = 1 then none
            else some { rpcUrl := nc.rpcUrl, name := nc.name, chainId := nc.chainId }

/-- A raw-key parser that rejects every key. -/
def noKeys : String → Except String KeyPair := fun k => Except.error k

/-- An HD derivation that rejects every path. -/
def noDerive : String → String → Except String KeyPair := fun _ ps => Except.error ps

/-- C3 counterexample: with an empty user configuration (default network
`mainnet`) and a provider construction failing only for mainnet, the
per-network catch leaves mainnet out of the pool, and client construction
then ABORTS with the provider-not-found throw from `initializeWallets` -
it does not complete. -/
theorem construction_aborts_on_default_network_failure :
    constructClient mkFailMainnet noKeys noDerive cfgEmpty
      = Except.error "Provider not found for network: mainnet" := by
  rfl

/-- C3 amended: a failure to construct an individual network connection is
caught and leaves exactly that network absent from the pool (pool lookup is
table lookup composed with the fallible construction) without aborting
provider initialization; but construction of the whole client completes
exactly when the default (current) network has a provider in the pool - a
configuration whose default network connection fails to construct aborts. -/
theorem construction_abort_characterization (mk : NetworkConfig → Option Provider)
    (parseKey : String → Except String KeyPair)
    (dh : String → String → Except String KeyPair) (cfg : EVMConfig) (k : String)
    (hnd : (cfg.networks.map Prod.fst).Nodup) :
    jsGet (initializeProviders mk cfg) k
        = (match jsGet (mergedNetworks cfg) k with
           | none => none
           | some n => mk n) ∧
    (constructClient mk parseKey dh cfg).isOk
        = (jsGet (initializeProviders mk cfg) (jsOrString cfg.defaultNetwork "mainnet")).isSome := by
  constructor
  · have h := provFold_get mk (mergedNetworks cfg) [] k
      (mergedNetworks_keys_nodup cfg hnd) (fun k2 _ => rfl)
    simpa [initializeProviders] using h
  · have h2 : (constructClient mk parseKey dh cfg).isOk
        = (initializeWallets parseKey dh (initializeProviders mk cfg)
            (jsOrString cfg.defaultNetwork "mainnet") cfg).isOk := by
      unfold constructClient
      cases h : initializeWallets parseKey dh (initializeProviders mk cfg)
          (jsOrString cfg.defaultNetwork "mainnet") cfg <;> simp [h, Except.isOk, Except.toBool]
    rw [h2, initializeWallets_isOk]

/-- Witness for C3 amended, at the counterexample configuration: polygon
(whose construction succeeds) is in the pool, and construction is not ok
because the defaulted mainnet cursor has no pool entry. -/
theorem construction_abort_characterization_w :
    (jsGet (initializeProviders mkFailMainnet cfgEmpty) "polygon"
        = (match jsGet (mergedNetworks cfgEmpty) "polygon" with
           | none => none
           | some n => mkFailMainnet n) ∧
     (constructClient mkFailMainnet noKeys noDerive cfgEmpty).isOk
        = (jsGet (initializeProviders mkFailMainnet cfgEmpty)
            (jsOrString cfgEmpty.defaultNetwork "mainnet")).isSome) :=
  construction_abort_characterization mkFailMainnet noKeys noDerive cfgEmpty "polygon"
    (by decide)

/-! Claim C4: estimateGas and signer resolution. -/

/-- The mainnet provider of the built-in table. -/
def provMainnet : Provider :=
  { rpcUrl := "https://eth.llamarpc.com", name := "Ethereum Mainnet", chainId := 1 }

/-- A client with one mainnet connection and an EMPTY identity pool. -/
def clientNoWallets : EVMClient :=
  { providers := [("mainnet", provMainnet)], wallets := [],
    config := cfgEmpty, currentNetwork := "mainnet" }

/-- C4 counterexample: the identity pool is empty and `request.from` names
no identity, yet `estimateGas` SUCCEEDS - it never resolves a signer and
never fails with the no-identity error, contradicting the claim that it
mirrors the signer-resolution step of `send`. -/
theorem estimateGas_succeeds_with_empty_pool :
    estimateGas (fun s => s.length) (fun n => toString n) (fun _ => 21000)
      { gasPrice := some 5, maxFeePerGas := none, maxPriorityFeePerGas := none }
      clientNoWallets
      { toAddr := "0xB", fromAddr := some "0xCAFE", value := none, data := none,
        gasLimit := none, gasPrice := none, maxFeePerGas := none,
        maxPriorityFeePerGas := none, nonce := none, chainId := none }
    = Except.ok { gasLimit := "21000", gasPrice := some "5", maxFeePerGas := none,
                  maxPriorityFeePerGas := none, estimatedCost := "105000" } := by
  rfl

/-- C4 amended: `estimateGas` mirrors the value/data shaping of `send` but
performs NO signer resolution: whenever the current network has a provider
it succeeds - even with an empty identity pool - and its result does not
depend on the identity pool at all; `request.from` is forwarded to the node
unchecked. -/
theorem estimateGas_ignores_identity_pool (parseEther : String → Nat)
    (formatEther : Nat → String) (nodeGas : EstTx → Nat) (feeData : FeeData)
    (c : EVMClient) (request : TransactionRequest)
    (hp : (jsGet c.providers c.currentNetwork).isSome = true) :
    (estimateGas parseEther formatEther nodeGas feeData c request).isOk = true ∧
    estimateGas parseEther formatEther nodeGas feeData { c with wallets := [] } request
      = estimateGas parseEther formatEther nodeGas feeData c request := by
  cases h : jsGet c.providers c.currentNetwork with
  | none => rw [h] at hp; simp at hp
  | some p =>
      constructor
      · unfold estimateGas getProvider
        simp only [Option.getD_none, h]
        cases h1 : jsBig feeData.maxFeePerGas <;>
          cases h2 : jsBig feeData.maxPriorityFeePerGas <;>
          cases h3 : jsBig feeData.gasPrice <;>
          simp [Except.isOk, Except.toBool]
      · unfold estimateGas getProvider
        simp only [Option.getD_none, h]

/-- Witness for C4 amended at the empty-pool client. -/
theorem estimateGas_ignores_identity_pool_w :
    (estimateGas (fun s => s.length) (fun n => toString n) (fun _ => 21000)
      { gasPrice := some 5, maxFeePerGas := none, maxPriorityFeePerGas := none }
      clientNoWallets
      { toAddr := "0xB", fromAddr := some "0xCAFE", value := none, data := none,
        gasLimit := none, gasPrice := none, maxFeePerGas := none,
        maxPriorityFeePerGas := none, nonce := none, chainId := none }).isOk = true ∧
    estimateGas (fun s => s.length) (fun n => toString n) (fun _ => 21000)
      { gasPrice := some 5, maxFeePerGas := none, maxPriorityFeePerGas := none }
      { clientNoWallets with wallets := [] }
      { toAddr := "0xB", fromAddr := some "0xCAFE", value := none, data := none,
        gasLimit := none, gasPrice := none, maxFeePerGas := none,
        maxPriorityFeePerGas := none, nonce := none, chainId := none }
      = estimateGas (fun s => s.length) (fun n => toString n) (fun _ => 21000)
      { gasPrice := some 5, maxFeePerGas := none, maxPriorityFeePerGas := none }
      clientNoWallets
      { toAddr := "0xB", fromAddr := some "0xCAFE", value := none, data := none,
        gasLimit := none, gasPrice := none, maxFeePerGas := none,
        maxPriorityFeePerGas := none, nonce := none, chainId := none } :=
  estimateGas_ignores_identity_pool (fun s => s.length) (fun n => toString n)
    (fun _ => 21000)
    { gasPrice := some 5, maxFeePerGas := none, maxPriorityFeePerGas := none }
    clientNoWallets
    { toAddr := "0xB", fromAddr := some "0xCAFE", value := none, data := none,
      gasLimit := none, gasPrice := none, maxFeePerGas := none,
      maxPriorityFeePerGas := none, nonce := none, chainId := none }
    (by decide)

/-! Claim C5: identity-pool keying and letter case. -/

/-- A wallet stored under the mixed-case (checksummed) address ethers
renders at creation. -/
def walletAb : Wallet :=
  { address := "0xAbCd", privateKey := "k1", provider := provMainnet }

/-- A client holding exactly `walletAb`, keyed by its checksummed
address. -/
def clientAb : EVMClient :=
  { providers := [("mainnet", provMainnet)], wallets := [("0xAbCd", walletAb)],
    config := cfgEmpty, currentNetwork := "mainnet" }

/-- C5 counterexample: the pool holds the identity under "0xAbCd", and a
request whose from-address differs only in hexadecimal letter case
("0xabcd") FAILS with the no-wallet error instead of resolving to that
identity - the pool is not keyed by case-normalized address. -/
theorem wallet_lookup_case_sensitive_cex :
    sendTransactionPrepare (fun s => s.length) (fun s => s.length) clientAb
      { toAddr := "0xB", fromAddr := some "0xabcd", value := none, data := none,
        gasLimit := none, gasPrice := none, maxFeePerGas := none,
        maxPriorityFeePerGas := none, nonce := none, chainId := none }
      = Except.error "No wallet available for sending transaction" := by
  rfl

/-- C5 amended: the identity pool is keyed by the EXACT address string
produced at wallet creation (the ethers checksummed rendering), with no
case normalization: signer resolution for a truthy `request.from` is plain
map lookup of that string, returning the stored identity exactly when the
strings are equal and failing with the no-wallet error whenever the lookup
misses - in particular when the request address differs only in letter
case. -/
theorem wallet_lookup_exact_key (parseEther toBigInt : String → Nat)
    (c : EVMClient) (request : TransactionRequest) (f : String) (p : Provider)
    (hp : jsGet c.providers c.currentNetwork = some p)
    (hf : jsStr request.fromAddr = some f) :
    (jsGet c.wallets f = none →
        sendTransactionPrepare parseEther toBigInt c request
          = Except.error "No wallet available for sending transaction") ∧
    (∀ w, jsGet c.wallets f = some w →
        sendTransactionPrepare parseEther toBigInt c request
          = Except.ok (w, buildTx parseEther toBigInt request)) := by
  unfold sendTransactionPrepare getProvider resolveWallet
  simp only [Option.getD_none, hp, hf]
  constructor
  · intro h; rw [h]
  · intro w h; rw [h]

/-- Witness for C5 amended at the counterexample client: the lowercase
lookup misses and the call errors. -/
theorem wallet_lookup_exact_key_w :
    sendTransactionPrepare (fun s => s.length) (fun s => s.length) clientAb
      { toAddr := "0xB", fromAddr := some "0xabcd", value := none, data := none,
        gasLimit := none, gasPrice := none, maxFeePerGas := none,
        maxPriorityFeePerGas := none, nonce := none, chainId := none }
      = Except.error "No wallet available for sending transaction" :=
  (wallet_lookup_exact_key (fun s => s.length) (fun s => s.length) clientAb
    { toAddr := "0xB", fromAddr := some "0xabcd", value := none, data := none,
      gasLimit := none, gasPrice := none, maxFeePerGas := none,
      maxPriorityFeePerGas := none, nonce := none, chainId := none }
    "0xabcd" provMainnet (by decide) (by decide)).1 (by decide)

/-! Claims C6 and C10: the fixed batch of 10 HD derivations. -/

/-- Run of the HD loop: if the first `k` derivations succeed and, when `k`
is not the whole batch, the derivation at position `k` fails, the loop
inserts exactly the first `k` derived wallets (the outer catch abandons the
rest, keeping what was already inserted). -/
theorem hdLoop_run (dh : String → String → Except String KeyPair) (m hp : String)
    (p : Provider) :
    ∀ (fuel start : Nat) (ws : List (String × Wallet)) (f : Nat → KeyPair) (k : Nat),
    k ≤ fuel →
    (∀ i, i < k → dh m (hp ++ "/" ++ toString (start + i)) = Except.ok (f i)) →
    (k < fuel → (dh m (hp ++ "/" ++ toString (start + k))).isOk = false) →
    hdLoop dh m hp p fuel start ws =
      (List.range k).foldl
        (fun acc i => jsSet acc (f i).address
          { address := (f i).address, privateKey := (f i).privateKey, provider := p }) ws
  | 0, start, ws, f, k, hk, _, _ => by
      have hk0 : k = 0 := Nat.le_zero.1 hk
      subst hk0
      simp [hdLoop]
  | fuel + 1, start, ws, f, k, hk, hok, hfail => by
      cases k with
      | zero =>
          have hf := hfail (Nat.zero_lt_succ fuel)
          rw [Nat.add_zero] at hf
          cases hd : dh m (hp ++ "/" ++ toString start) with
          | error e => simp [hdLoop, hd]
          | ok kp => rw [hd] at hf; simp [Except.isOk, Except.toBool] at hf
      | succ k2 =>
          have h0 := hok 0 (Nat.succ_pos k2)
          rw [Nat.add_zero] at h0
          have hok2 : ∀ i, i < k2 →
              dh m (hp ++ "/" ++ toString (start + 1 + i)) = Except.ok (f (i + 1)) := by
            intro i hi
            have h := hok (i + 1) (Nat.succ_lt_succ hi)
            have e : start + (i + 1) = start + 1 + i := by omega
            rwa [e] at h
          have hfail2 : k2 < fuel →
              (dh m (hp ++ "/" ++ toString (start + 1 + k2))).isOk = false := by
            intro hlt
            have h := hfail (Nat.succ_lt_succ hlt)
            have e : start + (k2 + 1) = start + 1 + k2 := by omega
            rwa [e] at h
          have ih := hdLoop_run dh m hp p fuel (start + 1)
            (jsSet ws (f 0).address
              { address := (f 0).address, privateKey := (f 0).privateKey, provider := p })
            (fun i => f (i + 1)) k2 (Nat.le_of_succ_le_succ hk) hok2 hfail2
          simp only [hdLoop, h0]
          rw [ih, List.range_succ_eq_map, List.foldl_cons, List.foldl_map]

/-- C6: with a (truthy) mnemonic, initialization derives exactly 10
sequential identities at paths `hdPath/(accountIndex+i)` for i in [0,10),
with `hdPath` defaulting to the standard Ethereum path and `accountIndex`
defaulting to 0, inserting them in order; and the derivation is
deterministic: configurations agreeing on mnemonic, path, account index
and raw keys initialize identical pools. -/
theorem hd_derivation_paths_and_determinism
    (parseKey : String → Except String KeyPair)
    (dh : String → String → Except String KeyPair)
    (providers : List (String × Provider)) (cur : String) (cfg : EVMConfig)
    (m : String) (p : Provider) (f : Nat → KeyPair)
    (hm : jsStr cfg.mnemonic = some m)
    (hp : jsGet providers cur = some p)
    (hok : ∀ i, i < 10 →
      dh m (jsOrString cfg.hdPath "m/44\x27/60\x27/0\x27/0" ++ "/" ++
        toString (cfg.accountIndex.getD 0 + i)) = Except.ok (f i)) :
    initializeWallets parseKey dh providers cur cfg
      = Except.ok ((List.range 10).foldl
          (fun acc i => jsSet acc (f i).address
            { address := (f i).address, privateKey := (f i).privateKey, provider := p })
          (rawWalletsPart parseKey p cfg)) ∧
    (∀ cfg2 : EVMConfig, cfg2.mnemonic = cfg.mnemonic → cfg2.hdPath = cfg.hdPath →
      cfg2.accountIndex = cfg.accountIndex → cfg2.privateKeys = cfg.privateKeys →
      initializeWallets parseKey dh providers cur cfg2
        = initializeWallets parseKey dh providers cur cfg) := by
  constructor
  · unfold initializeWallets
    simp only [hp, hm]
    exact congrArg Except.ok
      (hdLoop_run dh m (jsOrString cfg.hdPath "m/44\x27/60\x27/0\x27/0") p 10
        (cfg.accountIndex.getD 0) (rawWalletsPart parseKey p cfg) f 10
        (Nat.le_refl 10) hok (fun h => absurd h (by omega)))
  · intro cfg2 h1 h2 h3 h4
    unfold initializeWallets rawWalletsPart
    rw [h1, h2, h3, h4]

/-- An HD derivation that always succeeds, producing the path itself as the
address and the mnemonic as the key. -/
def dhOk : String → String → Except String KeyPair :=
  fun mn ps => Except.ok { address := ps, privateKey := mn }

/-- The empty configuration with a mnemonic. -/
def cfgMnemonic : EVMConfig := { cfgEmpty with mnemonic := some "seed" }

/-- Witness for C6: with the always-succeeding derivation, initialization
from `cfgMnemonic` yields the 10 wallets at the default paths 0..9 in
order. -/
theorem hd_derivation_paths_and_determinism_w :
    initializeWallets noKeys dhOk [("mainnet", provMainnet)] "mainnet" cfgMnemonic
      = Except.ok ((List.range 10).foldl
          (fun acc i => jsSet acc
            ((fun j => (⟨"m/44\x27/60\x27/0\x27/0" ++ "/" ++ toString (0 + j), "seed"⟩ : KeyPair)) i).address
            { address := ((fun j => (⟨"m/44\x27/60\x27/0\x27/0" ++ "/" ++ toString (0 + j), "seed"⟩ : KeyPair)) i).address,
              privateKey := ((fun j => (⟨"m/44\x27/60\x27/0\x27/0" ++ "/" ++ toString (0 + j), "seed"⟩ : KeyPair)) i).privateKey,
              provider := provMainnet })
          (rawWalletsPart noKeys provMainnet cfgMnemonic)) ∧
    (∀ cfg2 : EVMConfig, cfg2.mnemonic = cfgMnemonic.mnemonic →
      cfg2.hdPath = cfgMnemonic.hdPath →
      cfg2.accountIndex = cfgMnemonic.accountIndex →
      cfg2.privateKeys = cfgMnemonic.privateKeys →
      initializeWallets noKeys dhOk [("mainnet", provMainnet)] "mainnet" cfg2
        = initializeWallets noKeys dhOk [("mainnet", provMainnet)] "mainnet" cfgMnemonic) :=
  hd_derivation_paths_and_determinism noKeys dhOk [("mainnet", provMainnet)] "mainnet"
    cfgMnemonic "seed" provMainnet
    (fun j => ⟨"m/44\x27/60\x27/0\x27/0" ++ "/" ++ toString (0 + j), "seed"⟩)
    (by decide) (by decide) (fun i _ => rfl)

/-- C10: HD initialization is NOT per-identity fault-tolerant: if the
derivation at batch position k fails (all earlier ones succeeding), the
identities at positions 0..k-1 stay in the pool but positions k..9 are
never derived - the single catch around the loop abandons the remainder,
unlike the per-key skip of the raw-key branch. -/
theorem hd_batch_not_fault_tolerant
    (parseKey : String → Except String KeyPair)
    (dh : String → String → Except String KeyPair)
    (providers : List (String × Provider)) (cur : String) (cfg : EVMConfig)
    (m : String) (p : Provider) (f : Nat → KeyPair) (k : Nat)
    (hm : jsStr cfg.mnemonic = some m)
    (hp : jsGet providers cur = some p)
    (hk : k < 10)
    (hok : ∀ i, i < k →
      dh m (jsOrString cfg.hdPath "m/44\x27/60\x27/0\x27/0" ++ "/" ++
        toString (cfg.accountIndex.getD 0 + i)) = Except.ok (f i))
    (hfail : (dh m (jsOrString cfg.hdPath "m/44\x27/60\x27/0\x27/0" ++ "/" ++
        toString (cfg.accountIndex.getD 0 + k))).isOk = false) :
    initializeWallets parseKey dh providers cur cfg
      = Except.ok ((List.range k).foldl
          (fun acc i => jsSet acc (f i).address
            { address := (f i).address, privateKey := (f i).privateKey, provider := p })
          (rawWalletsPart parseKey p cfg)) := by
  unfold initializeWallets
  simp only [hp, hm]
  exact congrArg Except.ok
    (hdLoop_run dh m (jsOrString cfg.hdPath "m/44\x27/60\x27/0\x27/0") p 10
      (cfg.accountIndex.getD 0) (rawWalletsPart parseKey p cfg) f k
      (Nat.le_of_lt hk) hok (fun _ => hfail))

/-- An HD derivation failing exactly at default path index 3. -/
def dhFail3 : String → String → Except String KeyPair :=
  fun mn ps => if ps = "m/44\x27/60\x27/0\x27/0/3"
               then Except.error "bad path"
               else Except.ok { address := ps, privateKey := mn }

/-- Witness for C10 at position 3: the pool receives only the wallets of
positions 0, 1 and 2. -/
theorem hd_batch_not_fault_tolerant_w :
    initializeWallets noKeys dhFail3 [("mainnet", provMainnet)] "mainnet" cfgMnemonic
      = Except.ok ((List.range 3).foldl
          (fun acc i => jsSet acc
            ((fun j => (⟨"m/44\x27/60\x27/0\x27/0" ++ "/" ++ toString (0 + j), "seed"⟩ : KeyPair)) i).address
            { address := ((fun j => (⟨"m/44\x27/60\x27/0\x27/0" ++ "/" ++ toString (0 + j), "seed"⟩ : KeyPair)) i).address,
              privateKey := ((fun j => (⟨"m/44\x27/60\x27/0\x27/0" ++ "/" ++ toString (0 + j), "seed"⟩ : KeyPair)) i).privateKey,
              provider := provMainnet })
          (rawWalletsPart noKeys provMainnet cfgMnemonic)) :=
  hd_batch_not_fault_tolerant noKeys dhFail3 [("mainnet", provMainnet)] "mainnet"
    cfgMnemonic "seed" provMainnet
    (fun j => ⟨"m/44\x27/60\x27/0\x27/0" ++ "/" ++ toString (0 + j), "seed"⟩) 3
    (by decide) (by decide) (by decide)
    (fun i hi => by interval_cases i <;> rfl)
    (by rfl)

/-! Claim C7: failure-handling asymmetry of the contract facade. -/

/-- C7: `callContract` and `sendContractTransaction` catch every failure of
their bodies - including the missing-signer throw and any reverting or
unknown method - and return it in the string error field of a plain result
record (their return types are total), while `deployContract` propagates a
missing-signer failure as a raised error instead of converting it. -/
theorem contract_facade_error_asymmetry {Val Receipt : Type}
    (c : EVMClient) (contractAddress : String) (optionsFrom : Option String)
    (invoke : Provider → Except String Val)
    (invokeTx : Wallet → Except String (ContractTxOut Receipt))
    (deploy : Wallet → Except String DeployResult) :
    (∀ e, callContractBody c invoke = Except.error e →
        callContract c invoke
          = { result := none, decoded := none, error := some e }) ∧
    (∀ e, sendContractTransactionBody c optionsFrom invokeTx = Except.error e →
        sendContractTransaction c contractAddress optionsFrom invokeTx
          = { hash := "", fromAddr := "", toAddr := contractAddress, value := "0",
              data := "0x", receipt := none, error := some e }) ∧
    (resolveWallet c.wallets optionsFrom = none →
        sendContractTransactionBody c optionsFrom invokeTx
            = Except.error "No wallet available for sending transaction" ∧
        deployContract c optionsFrom deploy
            = Except.error "No wallet available for deployment") := by
  refine ⟨?_, ?_, ?_⟩
  · intro e h
    simp [callContract, h]
  · intro e h
    simp [sendContractTransaction, h]
  · intro h
    exact ⟨by simp [sendContractTransactionBody, h], by simp [deployContract, h]⟩

/-- Witness for C7 at the empty-pool client with a reverting method: both
soft methods return records with the error field set, and deployment
raises the missing-signer error. -/
theorem contract_facade_error_asymmetry_w :
    callContract clientNoWallets (fun _ => (Except.error "revert" : Except String Nat))
      = { result := none, decoded := none, error := some "revert" } ∧
    sendContractTransaction clientNoWallets "0xC" none
        (fun _ => (Except.error "revert" : Except String (ContractTxOut Nat)))
      = { hash := "", fromAddr := "", toAddr := "0xC", value := "0",
          data := "0x", receipt := none,
          error := some "No wallet available for sending transaction" } ∧
    deployContract clientNoWallets none (fun w => Except.ok ⟨w.address, "0xh"⟩)
      = Except.error "No wallet available for deployment" := by
  have h := contract_facade_error_asymmetry
    clientNoWallets "0xC" none
    (fun _ => (Except.error "revert" : Except String Nat))
    (fun _ => (Except.error "revert" : Except String (ContractTxOut Nat)))
    (fun w => Except.ok ⟨w.address, "0xh"⟩)
  exact ⟨h.1 "revert" rfl,
         h.2.1 "No wallet available for sending transaction" rfl,
         (h.2.2 rfl).2⟩

/-! Claim C8: per-key fault tolerance of raw-key initialization. -/

/-- Unrolling of the raw-key fold by one key. -/
theorem initRawWallets_cons (parseKey : String → Except String KeyPair) (p : Provider)
    (k : String) (rest : List String) (ws : List (String × Wallet)) :
    initRawWallets parseKey p (k :: rest) ws =
      initRawWallets parseKey p rest
        (match parseKey k with
         | Except.error _ => ws
         | Except.ok kp =>
             jsSet ws kp.address { address := kp.address, privateKey := kp.privateKey, provider := p }) := by
  simp only [initRawWallets, List.foldl_cons]

/-- Keys already present in the pool survive the raw-key fold. -/
theorem initRawWallets_mono (parseKey : String → Except String KeyPair) (p : Provider) :
    ∀ (keys : List String) (ws : List (String × Wallet)) (a : String),
    a ∈ ws.map Prod.fst → a ∈ (initRawWallets parseKey p keys ws).map Prod.fst
  | [], ws, a, h => h
  | k :: rest, ws, a, h => by
      rw [initRawWallets_cons]
      cases hpk : parseKey k with
      | error e => exact initRawWallets_mono parseKey p rest ws a h
      | ok kp =>
          exact initRawWallets_mono parseKey p rest _ a
            (mem_keys_jsSet_of_mem ws a kp.address _ h)

/-- C8: during raw-key initialization a malformed key is caught and
skipped while every well-formed key in the list still contributes its
identity to the pool - one bad raw key never aborts initialization of the
others; and if every key is malformed the pool is left exactly as it
was. -/
theorem raw_key_isolation (parseKey : String → Except String KeyPair) (p : Provider) :
    ∀ (keys : List String) (ws : List (String × Wallet)),
    (∀ k kp, k ∈ keys → parseKey k = Except.ok kp →
        kp.address ∈ (initRawWallets parseKey p keys ws).map Prod.fst) ∧
    ((∀ k, k ∈ keys → (parseKey k).isOk = false) →
        initRawWallets parseKey p keys ws = ws)
  | [], ws => by
      constructor
      · intro k kp hk
        exact absurd hk (List.not_mem_nil k)
      · intro _
        rfl
  | k1 :: rest, ws => by
      constructor
      · intro k kp hk hpk
        rw [initRawWallets_cons]
        rcases List.mem_cons.1 hk with hk1 | hk1
        · subst hk1
          rw [hpk]
          exact initRawWallets_mono parseKey p rest _ kp.address
            (mem_keys_jsSet_self ws kp.address _)
        · cases hpk1 : parseKey k1 with
          | error e => exact (raw_key_isolation parseKey p rest ws).1 k kp hk1 hpk
          | ok kp1 => exact (raw_key_isolation parseKey p rest _).1 k kp hk1 hpk
      · intro hall
        rw [initRawWallets_cons]
        cases hpk1 : parseKey k1 with
        | error e =>
            exact (raw_key_isolation parseKey p rest ws).2
              (fun k hk => hall k (List.mem_cons_of_mem k1 hk))
        | ok kp1 =>
            have := hall k1 (List.mem_cons_self k1 rest)
            rw [hpk1] at this
            simp [Except.isOk, Except.toBool] at this

/-- A raw-key parser rejecting exactly the key "bad". -/
def pkMixed : String → Except String KeyPair :=
  fun k => if k = "bad" then Except.error "malformed key"
           else Except.ok { address := "A-" ++ k, privateKey := k }

/-- Witness for C8: with the malformed key "bad" in the middle of the
list, the key after it still produces its identity in the pool. -/
theorem raw_key_isolation_w :
    "A-k2" ∈ (initRawWallets pkMixed provMainnet ["k1", "bad", "k2"] []).map Prod.fst :=
  (raw_key_isolation pkMixed provMainnet ["k1", "bad", "k2"] []).1
    "k2" { address := "A-k2", privateKey := "k2" } (by decide) (by rfl)

/-! Claim C9: which parts of name resolution are best-effort. -/

/-- C9 counterexample: a failing resolver lookup fails the WHOLE
`resolveENS` call - no `ENSInfo` record with the obtainable fields is
returned, contradicting the claim that the resolver lookup is individually
best-effort. -/
theorem resolver_failure_fails_resolve_cex :
    resolveENS clientNoWallets "vitalik.eth"
      { resolveName := Except.ok (some "0xd8dA"),
        getResolver := Except.error "resolver lookup failed" }
      = Except.error "resolver lookup failed" := by
  rfl

/-- C9 amended: only the avatar lookup is best-effort - its failure still
yields the `ENSInfo` record with the name, address and resolver fields -
while a failure of the resolver lookup propagates and fails the whole
`resolveENS` call. -/
theorem resolveENS_avatar_only_best_effort (c : EVMClient) (name : String)
    (p : Provider) (hp : jsGet c.providers c.currentNetwork = some p) :
    (∀ (o : ENSOracle) (addr : Option String) (r : ENSResolver) (raddr e : String),
        o.resolveName = Except.ok addr → o.getResolver = Except.ok (some r) →
        r.getAddress = Except.ok raddr → r.getAvatar = Except.error e →
        resolveENS c name o
          = Except.ok { name := some name, address := addr,
                        resolver := some raddr, avatar := none }) ∧
    (∀ (o : ENSOracle) (addr : Option String) (e : String),
        o.resolveName = Except.ok addr → o.getResolver = Except.error e →
        resolveENS c name o = Except.error e) := by
  constructor
  · intro o addr r raddr e h1 h2 h3 h4
    unfold resolveENS getProvider
    simp only [Option.getD_none, hp, h1, h2, h3, h4]
  · intro o addr e h1 h2
    unfold resolveENS getProvider
    simp only [Option.getD_none, hp, h1, h2]

/-- Witness for C9 amended: an avatar query that throws still yields the
record with name, address and resolver populated. -/
theorem resolveENS_avatar_only_best_effort_w :
    resolveENS clientNoWallets "vitalik.eth"
      { resolveName := Except.ok (some "0xd8dA"),
        getResolver := Except.ok (some
          { getAddress := Except.ok "0xResolver",
            getAvatar := Except.error "avatar fetch failed" }) }
      = Except.ok { name := some "vitalik.eth", address := some "0xd8dA",
                    resolver := some "0xResolver", avatar := none } :=
  (resolveENS_avatar_only_best_effort clientNoWallets "vitalik.eth" provMainnet
    (by decide)).1
    { resolveName := Except.ok (some "0xd8dA"),
      getResolver := Except.ok (some
        { getAddress := Except.ok "0xResolver",
          getAvatar := Except.error "avatar fetch failed" }) }
    (some "0xd8dA")
    { getAddress := Except.ok "0xResolver",
      getAvatar := Except.error "avatar fetch failed" }
    "0xResolver" "avatar fetch failed" rfl rfl rfl rfl
